import Mathlib

/-!
Verification development for the dewploy deployment-orchestration tool.

The definitions below are a shallow embedding of `src/src/main.rs`,
`src/src/cli.rs` and the data they manipulate.  External processes are
modelled by an oracle `ExecF` mapping a command invocation to its outcome
(launched with an exit status, or failed to launch); the environment is an
oracle `Env` mapping variable names to their optional values; changing the
working directory is an oracle that may fail with an io error message.
-/

namespace Dewploy

/-- BuildType from src/src/cli.rs (variants Debug and Release). -/
inductive BuildType
  | Debug
  | Release
deriving DecidableEq

/-- DaemonType from src/src/cli.rs (variants Async and Sync); parsed by the
CLI but never read by main.rs. -/
inductive DaemonType
  | Async
  | Sync
deriving DecidableEq

/-- Display of BuildType: the derived Debug formatting prints the variant
name (src/src/cli.rs, impl fmt Display for BuildType). -/
def BuildType.str : BuildType → String
  | BuildType.Debug => "Debug"
  | BuildType.Release => "Release"

/-- The lowercased build-type string used throughout main.rs
(build_type.to_string().to_lowercase(), with the lowercasing of the two
variant names folded to constants). -/
def BuildType.lower : BuildType → String
  | BuildType.Debug => "debug"
  | BuildType.Release => "release"

/-- FromStr for BuildType from src/src/cli.rs: accepts exactly "debug" and
"release", rejects everything else. -/
def BuildType.fromStr (s : String) : Except Unit BuildType :=
  match s with
  | "debug" => Except.ok BuildType.Debug
  | "release" => Except.ok BuildType.Release
  | _ => Except.error ()

/-- FromStr for DaemonType from src/src/cli.rs. -/
def DaemonType.fromStr (s : String) : Except Unit DaemonType :=
  match s with
  | "async" => Except.ok DaemonType.Async
  | "sync" => Except.ok DaemonType.Sync
  | _ => Except.error ()

/-- An IPv4 address: four octets (std::net::Ipv4Addr). -/
structure Ipv4 where
  a : Nat
  b : Nat
  c : Nat
  d : Nat
deriving DecidableEq

/-- Display of an IPv4 address as dotted decimal (std Display for Ipv4Addr). -/
def Ipv4.str (ip : Ipv4) : String :=
  toString ip.a ++ "." ++ toString ip.b ++ "." ++ toString ip.c ++ "." ++ toString ip.d

/-- Split a character list on a separator, with the semantics of splitting
a string on a single-character separator (an empty input gives one empty
group; a trailing separator gives a trailing empty group). -/
def splitChars (sep : Char) : List Char → List (List Char)
  | [] => [[]]
  | c :: rest =>
    if c = sep then [] :: splitChars sep rest
    else
      match splitChars sep rest with
      | g :: gs => (c :: g) :: gs
      | [] => [[c]]

/-- Decimal value of a digit run, with accumulator; none when a non-digit
appears. -/
def digitsVal (acc : Nat) : List Char → Option Nat
  | [] => some acc
  | c :: rest =>
    if c.isDigit then digitsVal (acc * 10 + (c.toNat - 48)) rest else none

/-- One octet of an IPv4 address, per the std u8 parser: nonempty, digits
only, value at most 255, no leading zero (a single "0" is allowed). -/
def parseOctet : List Char → Option Nat
  | [] => none
  | c0 :: rest =>
    match digitsVal 0 (c0 :: rest) with
    | none => none
    | some n =>
      if n ≤ 255 ∧ (rest = [] ∨ c0 ≠ '0') then some n else none

/-- IPv4 parsing per std::net::Ipv4Addr FromStr: exactly four octets
separated by dots. -/
def Ipv4.fromStr (s : String) : Option Ipv4 :=
  match (splitChars '.' s.data).map parseOctet with
  | [some a, some b, some c, some d] => some ⟨a, b, c, d⟩
  | _ => none

/-- The parsed command-line arguments, one field per clap field of
struct Args in src/src/cli.rs. -/
structure Args where
  build_type : Option BuildType
  daemon_type : Option DaemonType
  ip : Option Ipv4
  only_daemon : Bool
  only_runner : Bool
  with_cloudbuster : Bool
  no_stop : Bool
  no_start : Bool
  keep_logs : Bool
  no_strip : Bool
  working_dir : Option String
deriving DecidableEq

/-- Modelled from the spec: clap's argument validation is library code not
present under src/.  src/src/cli.rs declares only_daemon and only_runner
mutually exclusive (conflicts_with on both fields); per the spec, a command
line setting both is rejected at configuration time, so only argument
records with at most one of the two flags reach the pipeline. -/
def clap_accepts (a : Args) : Bool :=
  !(a.only_daemon && a.only_runner)

/-- A single external-process invocation: program, argument list, optional
working directory (std::process::Command as used by main.rs). -/
structure Cmd where
  program : String
  args : List String
  cwd : Option String
deriving DecidableEq

/-- TARGET_DIR constant from src/src/main.rs. -/
def TARGET_DIR : String := "target-deploy"

/-- Path file_name as used for the objcopy invocation (last component of a
slash-separated path; empty string when absent, per unwrap_or_default). -/
def pathFileName (p : String) : String :=
  String.mk (((splitChars '/' p.data).getLast?).getD [])

/-- Join character groups with a separator, the inverse of splitChars. -/
def joinChars (sep : Char) : List (List Char) → List Char
  | [] => []
  | [g] => g
  | g :: gs => g ++ sep :: joinChars sep gs

/-- Path parent as used for the objcopy invocation: everything before the
last slash-separated component; none only for the empty path (std Path
returns Some of the empty path for a single component). -/
def pathParent (p : String) : Option String :=
  if p = "" then none
  else some (String.mk (joinChars '/' ((splitChars '/' p.data).dropLast)))

/-- create_stop_command from src/src/main.rs. -/
def create_stop_command (ip : Ipv4) : Cmd :=
  ⟨"ssh", ["root@" ++ ip.str, "/a/sbin/akamai_run", "stop", "stormcloud"], none⟩

/-- create_start_command from src/src/main.rs. -/
def create_start_command (ip : Ipv4) : Cmd :=
  ⟨"ssh", ["root@" ++ ip.str, "/a/sbin/akamai_run", "start", "stormcloud"], none⟩

/-- create_remove_logs_command from src/src/main.rs. -/
def create_remove_logs_command (ip : Ipv4) : Cmd :=
  ⟨"ssh", ["root@" ++ ip.str, "rm", "-rf", "/a/logs/stormcloud"], none⟩

/-- create_build_command from src/src/main.rs: cross build with the target
directory and package, plus --release exactly when the build type is
Release. -/
def create_build_command (package : String) (build_type : BuildType) : Cmd :=
  ⟨"cross",
    ["build", "--target-dir", TARGET_DIR, "--package", package] ++
      (if build_type = BuildType.Release then ["--release"] else []),
    none⟩

/-- create_copy_debuginfo_command from src/src/main.rs. -/
def create_copy_debuginfo_command (target debug : String) : Cmd :=
  ⟨"objcopy", ["--only-keep-debug", target, debug], none⟩

/-- create_remove_debuginfo_command from src/src/main.rs: strips the binary
and links the sidecar debug file, running in the target's parent
directory. -/
def create_remove_debuginfo_command (target debug : String) : Cmd :=
  ⟨"objcopy",
    ["--strip-debug", "--strip-unneeded", "--remove-section", ".gnu_debuglink",
      "--add-gnu-debuglink", pathFileName debug, pathFileName target],
    some ((pathParent target).getD TARGET_DIR)⟩

/-- create_upload_command from src/src/main.rs. -/
def create_upload_command (source target : String) : Cmd :=
  ⟨"rsync",
    ["--human-readable", "--compress", "--progress", "--verbose", source, target],
    none⟩

/-- The observable outcome of running one external command: it launched and
exited (successfully or not), or it could not be launched (yielding an io
error message, which command.status()? propagates verbatim). -/
inductive ExecOutcome
  | launched (success : Bool)
  | failedToLaunch (msg : String)
deriving DecidableEq

/-- Oracle deciding the outcome of each external command. -/
def ExecF := Cmd → ExecOutcome

/-- Oracle for std::env::var: the value of each environment variable, if
set. -/
def Env := String → Option String

/-- The result of a pipeline fragment: the commands actually executed, in
order, and either success or the first error message. -/
abbrev Res := List Cmd × Except String Unit

/-- One pipeline step: the command to execute, and the bail! message used
when the command exits with a non-success status. -/
structure Step where
  cmd : Cmd
  failMsg : String
deriving DecidableEq

/-- Run a list of steps in order, mirroring the chain of command.status()
calls in main.rs: a command that exits successfully lets the next step run;
a non-success exit stops everything with the step's bail! message; a launch
failure stops everything with the propagated io error message. -/
def runSteps (exec : ExecF) : List Step → Res
  | [] => ([], Except.ok ())
  | s :: rest =>
    match exec s.cmd with
    | ExecOutcome.launched true =>
      (s.cmd :: (runSteps exec rest).1, (runSteps exec rest).2)
    | ExecOutcome.launched false => ([s.cmd], Except.error s.failMsg)
    | ExecOutcome.failedToLaunch msg => ([s.cmd], Except.error msg)

/-- The result of a skipped (flag-gated) fragment: nothing ran, success. -/
def skip : Res := ([], Except.ok ())

/-- Sequencing of two pipeline fragments, mirroring the ? operator: the
second fragment runs only when the first succeeded. -/
def seqRes (a b : Res) : Res :=
  match a.2 with
  | Except.ok _ => (a.1 ++ b.1, b.2)
  | Except.error e => (a.1, Except.error e)

/-- The stop step (stop_stormcloud in src/src/main.rs). -/
def stopStep (ip : Ipv4) : Step :=
  ⟨create_stop_command ip, "failed to stop stormcloud on " ++ ip.str⟩

/-- The start step (start_stormcloud in src/src/main.rs). -/
def startStep (ip : Ipv4) : Step :=
  ⟨create_start_command ip, "failed to start stormcloud on " ++ ip.str⟩

/-- The log-removal step (remove_logs in src/src/main.rs). -/
def removeLogsStep (ip : Ipv4) : Step :=
  ⟨create_remove_logs_command ip, "failed to remove logs on " ++ ip.str⟩

/-- The daemon build step (build_daemon in src/src/main.rs). -/
def buildDaemonStep (bt : BuildType) : Step :=
  ⟨create_build_command "stormcloud_daemon" bt,
    "failed to build " ++ bt.lower ++ " daemon"⟩

/-- The runner build step (build_runner in src/src/main.rs). -/
def buildRunnerStep (bt : BuildType) : Step :=
  ⟨create_build_command "stormrunner_javascript" bt,
    "failed to build " ++ bt.lower ++ " runner"⟩

/-- The cloudbuster build step (build_cloudbuster in src/src/main.rs). -/
def buildCloudbusterStep (bt : BuildType) : Step :=
  ⟨create_build_command "cloudbuster" bt,
    "failed to build " ++ bt.lower ++ " cloudbuster"⟩

/-- Local build-output path of the daemon (strip_daemon / upload_daemon). -/
def daemonTargetPath (bt : BuildType) : String :=
  TARGET_DIR ++ "/" ++ bt.lower ++ "/stormcloud_daemon"

/-- Local build-output path of the runner (strip_runner / upload_runner). -/
def runnerTargetPath (bt : BuildType) : String :=
  TARGET_DIR ++ "/" ++ bt.lower ++ "/stormrunner_javascript"

/-- Local build-output path of cloudbuster (strip_cloudbuster /
upload_cloudbuster). -/
def cloudbusterTargetPath (bt : BuildType) : String :=
  TARGET_DIR ++ "/" ++ bt.lower ++ "/cloudbuster"

/-- First half of strip_daemon: extract debug symbols into a sidecar. -/
def stripDaemonCopyStep (bt : BuildType) : Step :=
  ⟨create_copy_debuginfo_command (daemonTargetPath bt) (daemonTargetPath bt ++ ".debug"),
    "failed to copy debuginfo for " ++ bt.lower ++ " daemon"⟩

/-- Second half of strip_daemon: strip the binary and add the debug link. -/
def stripDaemonRemoveStep (bt : BuildType) : Step :=
  ⟨create_remove_debuginfo_command (daemonTargetPath bt) (daemonTargetPath bt ++ ".debug"),
    "failed to remove debuginfo for " ++ bt.lower ++ " daemon"⟩

/-- First half of strip_runner. -/
def stripRunnerCopyStep (bt : BuildType) : Step :=
  ⟨create_copy_debuginfo_command (runnerTargetPath bt) (runnerTargetPath bt ++ ".debug"),
    "failed to copy debuginfo for " ++ bt.lower ++ " runner"⟩

/-- Second half of strip_runner. -/
def stripRunnerRemoveStep (bt : BuildType) : Step :=
  ⟨create_remove_debuginfo_command (runnerTargetPath bt) (runnerTargetPath bt ++ ".debug"),
    "failed to remove debuginfo for " ++ bt.lower ++ " runner"⟩

/-- First half of strip_cloudbuster. -/
def stripCloudbusterCopyStep (bt : BuildType) : Step :=
  ⟨create_copy_debuginfo_command (cloudbusterTargetPath bt) (cloudbusterTargetPath bt ++ ".debug"),
    "failed to copy debuginfo for " ++ bt.lower ++ " cloudbuster"⟩

/-- Second half of strip_cloudbuster. -/
def stripCloudbusterRemoveStep (bt : BuildType) : Step :=
  ⟨create_remove_debuginfo_command (cloudbusterTargetPath bt) (cloudbusterTargetPath bt ++ ".debug"),
    "failed to remove debuginfo for " ++ bt.lower ++ " cloudbuster"⟩

/-- The daemon upload step (upload_daemon in src/src/main.rs). -/
def uploadDaemonStep (bt : BuildType) (ip : Ipv4) : Step :=
  ⟨create_upload_command (daemonTargetPath bt)
      ("root@" ++ ip.str ++ ":/a/stormcloud/bin/release/stormcloud_daemon"),
    "failed to upload " ++ bt.lower ++ " daemon to " ++ ip.str⟩

/-- The runner upload step (upload_runner in src/src/main.rs). -/
def uploadRunnerStep (bt : BuildType) (ip : Ipv4) : Step :=
  ⟨create_upload_command (runnerTargetPath bt)
      ("root@" ++ ip.str ++
        ":/a/stormcloud/stormlets/release/deployed/stormlet_javascript@0.0.0/stormrunner_javascript.0.0.0"),
    "failed to upload " ++ bt.lower ++ " runner to " ++ ip.str⟩

/-- The cloudbuster upload step (upload_cloudbuster in src/src/main.rs). -/
def uploadCloudbusterStep (bt : BuildType) (ip : Ipv4) : Step :=
  ⟨create_upload_command (cloudbusterTargetPath bt)
      ("root@" ++ ip.str ++ ":/a/stormcloud/bin/cloudbuster"),
    "failed to upload " ++ bt.lower ++ " cloudbuster to " ++ ip.str⟩

/-- stop_stormcloud from src/src/main.rs. -/
def stop_stormcloud (exec : ExecF) (ip : Ipv4) : Res := runSteps exec [stopStep ip]

/-- start_stormcloud from src/src/main.rs. -/
def start_stormcloud (exec : ExecF) (ip : Ipv4) : Res := runSteps exec [startStep ip]

/-- remove_logs from src/src/main.rs. -/
def remove_logs (exec : ExecF) (ip : Ipv4) : Res := runSteps exec [removeLogsStep ip]

/-- build_daemon from src/src/main.rs. -/
def build_daemon (exec : ExecF) (bt : BuildType) : Res := runSteps exec [buildDaemonStep bt]

/-- build_runner from src/src/main.rs. -/
def build_runner (exec : ExecF) (bt : BuildType) : Res := runSteps exec [buildRunnerStep bt]

/-- build_cloudbuster from src/src/main.rs. -/
def build_cloudbuster (exec : ExecF) (bt : BuildType) : Res :=
  runSteps exec [buildCloudbusterStep bt]

/-- strip_daemon from src/src/main.rs: two objcopy invocations. -/
def strip_daemon (exec : ExecF) (bt : BuildType) : Res :=
  runSteps exec [stripDaemonCopyStep bt, stripDaemonRemoveStep bt]

/-- strip_runner from src/src/main.rs. -/
def strip_runner (exec : ExecF) (bt : BuildType) : Res :=
  runSteps exec [stripRunnerCopyStep bt, stripRunnerRemoveStep bt]

/-- strip_cloudbuster from src/src/main.rs. -/
def strip_cloudbuster (exec : ExecF) (bt : BuildType) : Res :=
  runSteps exec [stripCloudbusterCopyStep bt, stripCloudbusterRemoveStep bt]

/-- upload_daemon from src/src/main.rs. -/
def upload_daemon (exec : ExecF) (bt : BuildType) (ip : Ipv4) : Res :=
  runSteps exec [uploadDaemonStep bt ip]

/-- upload_runner from src/src/main.rs. -/
def upload_runner (exec : ExecF) (bt : BuildType) (ip : Ipv4) : Res :=
  runSteps exec [uploadRunnerStep bt ip]

/-- upload_cloudbuster from src/src/main.rs. -/
def upload_cloudbuster (exec : ExecF) (bt : BuildType) (ip : Ipv4) : Res :=
  runSteps exec [uploadCloudbusterStep bt ip]

/-- deploy_project from src/src/main.rs: builds, then strips (unless
no_strip), then uploads, each selected by the only_daemon / only_runner /
with_cloudbuster flags, each group aborting on the first failure. -/
def deploy_project (exec : ExecF) (build_type : BuildType) (ip : Ipv4)
    (only_daemon only_runner with_cloudbuster no_strip : Bool) : Res :=
  seqRes (if only_runner then skip else build_daemon exec build_type)
    (seqRes (if only_daemon then skip else build_runner exec build_type)
      (seqRes (if with_cloudbuster then build_cloudbuster exec build_type else skip)
        (seqRes
          (if no_strip then skip
            else
              seqRes (if only_runner then skip else strip_daemon exec build_type)
                (seqRes (if only_daemon then skip else strip_runner exec build_type)
                  (if with_cloudbuster then strip_cloudbuster exec build_type else skip)))
          (seqRes (if only_runner then skip else upload_daemon exec build_type ip)
            (seqRes (if only_daemon then skip else upload_runner exec build_type ip)
              (if with_cloudbuster then upload_cloudbuster exec build_type ip
                else skip))))))

/-- Error message bailed when no build type is available
(src/src/main.rs, parse_build_type). -/
def buildTypeMissingMsg : String :=
  "STORMCLOUD_BUILD_TYPE env var must be defined or --build-type must be supplied"

/-- Error message bailed when no target IP is available
(src/src/main.rs, parse_ip). -/
def ipMissingMsg : String :=
  "GHOST_IP env var must be defined or --ip must be supplied"

/-- parse_build_type from src/src/main.rs: the CLI flag if present,
otherwise the STORMCLOUD_BUILD_TYPE environment variable when it parses,
otherwise the fixed bail! message (a set but unparseable variable falls
through to the same message). -/
def parse_build_type (args : Args) (env : Env) : Except String BuildType :=
  match args.build_type with
  | some build_type => Except.ok build_type
  | none =>
    match env "STORMCLOUD_BUILD_TYPE" with
    | some s =>
      match BuildType.fromStr s with
      | Except.ok build_type => Except.ok build_type
      | Except.error _ => Except.error buildTypeMissingMsg
    | none => Except.error buildTypeMissingMsg

/-- parse_ip from src/src/main.rs: the CLI flag if present, otherwise the
GHOST_IP environment variable when it parses, otherwise the fixed bail!
message. -/
def parse_ip (args : Args) (env : Env) : Except String Ipv4 :=
  match args.ip with
  | some ip => Except.ok ip
  | none =>
    match env "GHOST_IP" with
    | some s =>
      match Ipv4.fromStr s with
      | some ip => Except.ok ip
      | none => Except.error ipMissingMsg
    | none => Except.error ipMissingMsg

/-- switch_to_working_dir from src/src/main.rs: change directory only when
the CLI flag supplied one (the chdir oracle models
std::env::set_current_dir); no environment variable is consulted and the
absent case is a no-op success. -/
def switch_to_working_dir (chdir : String → Except String Unit)
    (working_dir : Option String) : Except String Unit :=
  match working_dir with
  | some d => chdir d
  | none => Except.ok ()

/-- main from src/src/main.rs: resolve the build type and IP, switch the
working directory, then stop (unless no_stop), deploy, remove logs (unless
keep_logs) and start (unless no_start), aborting at the first error. -/
def main (args : Args) (env : Env) (chdir : String → Except String Unit)
    (exec : ExecF) : Res :=
  match parse_build_type args env with
  | Except.error e => ([], Except.error e)
  | Except.ok build_type =>
    match parse_ip args env with
    | Except.error e => ([], Except.error e)
    | Except.ok ip =>
      match switch_to_working_dir chdir args.working_dir with
      | Except.error e => ([], Except.error e)
      | Except.ok _ =>
        seqRes (if args.no_stop then skip else stop_stormcloud exec ip)
          (seqRes
            (deploy_project exec build_type ip args.only_daemon args.only_runner
              args.with_cloudbuster args.no_strip)
            (seqRes (if args.keep_logs then skip else remove_logs exec ip)
              (if args.no_start then skip else start_stormcloud exec ip)))

/-- The commands main issues, in order. -/
def mainTrace (args : Args) (env : Env) (chdir : String → Except String Unit)
    (exec : ExecF) : List Cmd :=
  (main args env chdir exec).1

/-- The steps deploy_project performs when every command succeeds, in
order, as a flat list. -/
def deployPlan (build_type : BuildType) (ip : Ipv4)
    (only_daemon only_runner with_cloudbuster no_strip : Bool) : List Step :=
  (if only_runner then [] else [buildDaemonStep build_type]) ++
    ((if only_daemon then [] else [buildRunnerStep build_type]) ++
      ((if with_cloudbuster then [buildCloudbusterStep build_type] else []) ++
        ((if no_strip then []
            else
              (if only_runner then []
                  else [stripDaemonCopyStep build_type, stripDaemonRemoveStep build_type]) ++
                ((if only_daemon then []
                    else [stripRunnerCopyStep build_type, stripRunnerRemoveStep build_type]) ++
                  (if with_cloudbuster then
                      [stripCloudbusterCopyStep build_type, stripCloudbusterRemoveStep build_type]
                    else []))) ++
          ((if only_runner then [] else [uploadDaemonStep build_type ip]) ++
            ((if only_daemon then [] else [uploadRunnerStep build_type ip]) ++
              (if with_cloudbuster then [uploadCloudbusterStep build_type ip] else []))))))

/-- The steps main performs when every command succeeds, in order, as a
flat list. -/
def mainPlan (args : Args) (build_type : BuildType) (ip : Ipv4) : List Step :=
  (if args.no_stop then [] else [stopStep ip]) ++
    (deployPlan build_type ip args.only_daemon args.only_runner args.with_cloudbuster
        args.no_strip ++
      ((if args.keep_logs then [] else [removeLogsStep ip]) ++
        (if args.no_start then [] else [startStep ip])))

/-- The build-type value supplied by the environment, when it parses;
parse_build_type falls back to exactly this value. -/
def envBuildType (env : Env) : Option BuildType :=
  (env "STORMCLOUD_BUILD_TYPE").bind (fun s => (BuildType.fromStr s).toOption)

/-- The target-host value supplied by the environment, when it parses;
parse_ip falls back to exactly this value. -/
def envIp (env : Env) : Option Ipv4 :=
  (env "GHOST_IP").bind Ipv4.fromStr

/-- Modelled from the spec: the spec's working-directory resolution — the
CLI flag when present, otherwise a working-directory environment variable.
No such environment fallback exists anywhere under src/; this definition
exists to be compared with what main actually does. -/
def resolve_working_dir_spec (cli : Option String) (env : Env) : Option String :=
  match cli with
  | some d => some d
  | none => env "STORMCLOUD_WORKING_DIR"

/-- Example target host 10.0.0.5 used by the concrete witnesses. -/
def ipA : Ipv4 := ⟨10, 0, 0, 5⟩

/-- A configuration with both required values given on the CLI and no
selection or skip flags. -/
def cfgA : Args :=
  ⟨some BuildType.Debug, none, some ipA, false, false, false, false, false,
    false, false, none⟩

/-- A configuration selecting only the runner and skipping the strip
phase. -/
def cfgB : Args :=
  ⟨some BuildType.Debug, none, some ipA, false, true, false, false, false,
    false, true, none⟩

/-- A configuration supplying nothing on the CLI. -/
def cfgNone : Args :=
  ⟨none, none, none, false, false, false, false, false, false, false, none⟩

/-- A configuration like cfgA but with a working-directory flag. -/
def cfgC : Args :=
  ⟨some BuildType.Debug, none, some ipA, false, false, false, false, false,
    false, false, some "/srv/checkout"⟩

/-- An environment with no variable set. -/
def envNone : Env := fun _ => none

/-- An environment in which every variable is set to a directory path. -/
def envAll : Env := fun _ => some "/srv/work"

/-- An environment carrying unparseable values for both fallback
variables. -/
def envBad : Env := fun v =>
  if v = "STORMCLOUD_BUILD_TYPE" then some "fast-release"
  else if v = "GHOST_IP" then some "999.0.0.1" else none

/-- An environment carrying parseable values conflicting with cfgA's CLI
choices. -/
def envConflict : Env := fun v =>
  if v = "STORMCLOUD_BUILD_TYPE" then some "release"
  else if v = "GHOST_IP" then some "10.1.2.3" else none

/-- A chdir oracle that always succeeds. -/
def chdirOk : String → Except String Unit := fun _ => Except.ok ()

/-- A chdir oracle that fails loudly: a run it does not affect never called
chdir. -/
def chdirProbe : String → Except String Unit := fun _ => Except.error "chdir called"

/-- An execution oracle in which every command succeeds. -/
def execOk : ExecF := fun _ => ExecOutcome.launched true

/-- An execution oracle in which build commands exit non-zero and
everything else succeeds. -/
def execFailCross : ExecF := fun c =>
  if c.program = "cross" then ExecOutcome.launched false else ExecOutcome.launched true

/-- An execution oracle in which no command can be launched; the io error
message is the one std reports for a missing binary. -/
def execNoLaunch : ExecF := fun _ =>
  ExecOutcome.failedToLaunch "No such file or directory (os error 2)"

theorem runSteps_nil (exec : ExecF) : runSteps exec [] = skip := rfl

theorem seqRes_skip_left (r : Res) : seqRes skip r = r := by
  simp [seqRes, skip]

theorem runSteps_append (exec : ExecF) (l₁ l₂ : List Step) :
    runSteps exec (l₁ ++ l₂) = seqRes (runSteps exec l₁) (runSteps exec l₂) := by
  induction l₁ with
  | nil => simp [runSteps, seqRes]
  | cons s t ih =>
    simp only [List.cons_append, runSteps]
    cases h : exec s.cmd with
    | launched success =>
      cases success with
      | true =>
        simp only [h, List.append_eq]
        rw [ih]
        cases h2 : (runSteps exec t).2 with
        | ok u => simp [seqRes, h2]
        | error e => simp [seqRes, h2]
      | false => simp [h, seqRes]
    | failedToLaunch msg => simp [h, seqRes]

theorem runSteps_ok (exec : ExecF) (l : List Step)
    (h : ∀ s ∈ l, exec s.cmd = ExecOutcome.launched true) :
    runSteps exec l = (l.map Step.cmd, Except.ok ()) := by
  induction l with
  | nil => rfl
  | cons s t ih =>
    have hs := h s (List.mem_cons_self s t)
    simp only [runSteps, hs]
    rw [ih (fun x hx => h x (List.mem_cons_of_mem s hx))]
    simp

theorem runSteps_front (exec : ExecF) (l : List Step) :
    ∃ rest, (runSteps exec l).1 ++ rest = l.map Step.cmd := by
  induction l with
  | nil => exact ⟨[], rfl⟩
  | cons s t ih =>
    cases h : exec s.cmd with
    | launched success =>
      cases success with
      | true =>
        obtain ⟨r, hr⟩ := ih
        exact ⟨r, by simp [runSteps, h, hr]⟩
      | false => exact ⟨t.map Step.cmd, by simp [runSteps, h]⟩
    | failedToLaunch m => exact ⟨t.map Step.cmd, by simp [runSteps, h]⟩

theorem seqRes_skip_right (r : Res) : seqRes r skip = r := by
  obtain ⟨t, e⟩ := r
  cases e <;> simp [seqRes, skip]

theorem deploy_project_eq (exec : ExecF) (bt : BuildType) (ip : Ipv4)
    (od orr wc ns : Bool) :
    deploy_project exec bt ip od orr wc ns = runSteps exec (deployPlan bt ip od orr wc ns) := by
  cases od <;> cases orr <;> cases wc <;> cases ns <;>
    simp [deploy_project, deployPlan, build_daemon, build_runner, build_cloudbuster,
      strip_daemon, strip_runner, strip_cloudbuster, upload_daemon, upload_runner,
      upload_cloudbuster, seqRes_skip_left, seqRes_skip_right, runSteps_nil,
      ← runSteps_append]

theorem main_eq (args : Args) (env : Env) (chdir : String → Except String Unit)
    (exec : ExecF) (bt : BuildType) (ip : Ipv4)
    (hbt : parse_build_type args env = Except.ok bt)
    (hip : parse_ip args env = Except.ok ip)
    (hwd : switch_to_working_dir chdir args.working_dir = Except.ok ()) :
    main args env chdir exec = runSteps exec (mainPlan args bt ip) := by
  simp only [main, hbt, hip, hwd, mainPlan]
  rw [runSteps_append, runSteps_append, runSteps_append, deploy_project_eq,
    apply_ite (runSteps exec), apply_ite (runSteps exec), apply_ite (runSteps exec)]
  rfl

/-- Pipeline phase of a command, read off the invocation itself: build
commands run the build tool, strip commands run objcopy, uploads run rsync,
and the three remote ssh commands are told apart by their third argument
(stop, start, or the log-removal rm flags). -/
def cmdPhase (c : Cmd) : Nat :=
  if c.program = "cross" then 1
  else if c.program = "objcopy" then 2
  else if c.program = "rsync" then 3
  else if c.args.get? 2 = some "stop" then 0
  else if c.args.get? 2 = some "start" then 5
  else 4

/-- A remote stop invocation: ssh whose remote command argument is stop. -/
def isStopCmd (c : Cmd) : Bool := c.program == "ssh" && c.args.get? 2 == some "stop"

/-- A remote start invocation: ssh whose remote command argument is start. -/
def isStartCmd (c : Cmd) : Bool := c.program == "ssh" && c.args.get? 2 == some "start"

/-- A build invocation (the cross build tool). -/
def isBuildCmd (c : Cmd) : Bool := c.program == "cross"

/-- A strip invocation (objcopy). -/
def isStripCmd (c : Cmd) : Bool := c.program == "objcopy"

/-- An upload invocation (rsync). -/
def isUploadCmd (c : Cmd) : Bool := c.program == "rsync"

theorem phase_of_isStop {c : Cmd} (h : isStopCmd c = true) : cmdPhase c = 0 := by
  simp only [isStopCmd, Bool.and_eq_true, beq_iff_eq] at h
  obtain ⟨h1, h2⟩ := h
  rw [List.get?_eq_getElem?] at h2
  simp [cmdPhase, h1, h2]

theorem phase_of_isStart {c : Cmd} (h : isStartCmd c = true) : cmdPhase c = 5 := by
  simp only [isStartCmd, Bool.and_eq_true, beq_iff_eq] at h
  obtain ⟨h1, h2⟩ := h
  rw [List.get?_eq_getElem?] at h2
  simp [cmdPhase, h1, h2]

theorem phase_of_isBuild {c : Cmd} (h : isBuildCmd c = true) : cmdPhase c = 1 := by
  simp only [isBuildCmd, beq_iff_eq] at h
  simp [cmdPhase, h]

theorem phase_of_isStrip {c : Cmd} (h : isStripCmd c = true) : cmdPhase c = 2 := by
  simp only [isStripCmd, beq_iff_eq] at h
  simp [cmdPhase, h]

theorem phase_of_isUpload {c : Cmd} (h : isUploadCmd c = true) : cmdPhase c = 3 := by
  simp only [isUploadCmd, beq_iff_eq] at h
  simp [cmdPhase, h]

theorem cmdPhase_stopStep (ip : Ipv4) : cmdPhase (stopStep ip).cmd = 0 := by
  simp [cmdPhase, stopStep, create_stop_command]

theorem cmdPhase_startStep (ip : Ipv4) : cmdPhase (startStep ip).cmd = 5 := by
  simp [cmdPhase, startStep, create_start_command]

theorem cmdPhase_removeLogsStep (ip : Ipv4) : cmdPhase (removeLogsStep ip).cmd = 4 := by
  simp [cmdPhase, removeLogsStep, create_remove_logs_command]

theorem cmdPhase_buildDaemonStep (bt : BuildType) : cmdPhase (buildDaemonStep bt).cmd = 1 := by
  simp [cmdPhase, buildDaemonStep, create_build_command]

theorem cmdPhase_buildRunnerStep (bt : BuildType) : cmdPhase (buildRunnerStep bt).cmd = 1 := by
  simp [cmdPhase, buildRunnerStep, create_build_command]

theorem cmdPhase_buildCloudbusterStep (bt : BuildType) :
    cmdPhase (buildCloudbusterStep bt).cmd = 1 := by
  simp [cmdPhase, buildCloudbusterStep, create_build_command]

theorem cmdPhase_stripDaemonCopyStep (bt : BuildType) :
    cmdPhase (stripDaemonCopyStep bt).cmd = 2 := by
  simp [cmdPhase, stripDaemonCopyStep, create_copy_debuginfo_command]

theorem cmdPhase_stripDaemonRemoveStep (bt : BuildType) :
    cmdPhase (stripDaemonRemoveStep bt).cmd = 2 := by
  simp [cmdPhase, stripDaemonRemoveStep, create_remove_debuginfo_command]

theorem cmdPhase_stripRunnerCopyStep (bt : BuildType) :
    cmdPhase (stripRunnerCopyStep bt).cmd = 2 := by
  simp [cmdPhase, stripRunnerCopyStep, create_copy_debuginfo_command]

theorem cmdPhase_stripRunnerRemoveStep (bt : BuildType) :
    cmdPhase (stripRunnerRemoveStep bt).cmd = 2 := by
  simp [cmdPhase, stripRunnerRemoveStep, create_remove_debuginfo_command]

theorem cmdPhase_stripCloudbusterCopyStep (bt : BuildType) :
    cmdPhase (stripCloudbusterCopyStep bt).cmd = 2 := by
  simp [cmdPhase, stripCloudbusterCopyStep, create_copy_debuginfo_command]

theorem cmdPhase_stripCloudbusterRemoveStep (bt : BuildType) :
    cmdPhase (stripCloudbusterRemoveStep bt).cmd = 2 := by
  simp [cmdPhase, stripCloudbusterRemoveStep, create_remove_debuginfo_command]

theorem cmdPhase_uploadDaemonStep (bt : BuildType) (ip : Ipv4) :
    cmdPhase (uploadDaemonStep bt ip).cmd = 3 := by
  simp [cmdPhase, uploadDaemonStep, create_upload_command]

theorem cmdPhase_uploadRunnerStep (bt : BuildType) (ip : Ipv4) :
    cmdPhase (uploadRunnerStep bt ip).cmd = 3 := by
  simp [cmdPhase, uploadRunnerStep, create_upload_command]

theorem cmdPhase_uploadCloudbusterStep (bt : BuildType) (ip : Ipv4) :
    cmdPhase (uploadCloudbusterStep bt ip).cmd = 3 := by
  simp [cmdPhase, uploadCloudbusterStep, create_upload_command]

theorem pairwise_phase_append {l₁ l₂ : List Step} (m : Nat)
    (h₁ : ∀ s ∈ l₁, cmdPhase s.cmd ≤ m) (h₂ : ∀ s ∈ l₂, m ≤ cmdPhase s.cmd)
    (p₁ : l₁.Pairwise (fun a b => cmdPhase a.cmd ≤ cmdPhase b.cmd))
    (p₂ : l₂.Pairwise (fun a b => cmdPhase a.cmd ≤ cmdPhase b.cmd)) :
    (l₁ ++ l₂).Pairwise (fun a b => cmdPhase a.cmd ≤ cmdPhase b.cmd) :=
  List.pairwise_append.mpr ⟨p₁, p₂, fun a ha b hb => le_trans (h₁ a ha) (h₂ b hb)⟩

theorem deployPlan_phase_bounds (bt : BuildType) (ip : Ipv4) (od orr wc ns : Bool) :
    ∀ s ∈ deployPlan bt ip od orr wc ns, 1 ≤ cmdPhase s.cmd ∧ cmdPhase s.cmd ≤ 3 := by
  cases od <;> cases orr <;> cases wc <;> cases ns <;>
    simp [deployPlan, cmdPhase_buildDaemonStep, cmdPhase_buildRunnerStep,
      cmdPhase_buildCloudbusterStep, cmdPhase_stripDaemonCopyStep,
      cmdPhase_stripDaemonRemoveStep, cmdPhase_stripRunnerCopyStep,
      cmdPhase_stripRunnerRemoveStep, cmdPhase_stripCloudbusterCopyStep,
      cmdPhase_stripCloudbusterRemoveStep, cmdPhase_uploadDaemonStep,
      cmdPhase_uploadRunnerStep, cmdPhase_uploadCloudbusterStep]

theorem deployPlan_sorted (bt : BuildType) (ip : Ipv4) (od orr wc ns : Bool) :
    (deployPlan bt ip od orr wc ns).Pairwise
      (fun a b => cmdPhase a.cmd ≤ cmdPhase b.cmd) := by
  cases od <;> cases orr <;> cases wc <;> cases ns <;>
    simp [deployPlan, List.pairwise_cons, cmdPhase_buildDaemonStep,
      cmdPhase_buildRunnerStep, cmdPhase_buildCloudbusterStep,
      cmdPhase_stripDaemonCopyStep, cmdPhase_stripDaemonRemoveStep,
      cmdPhase_stripRunnerCopyStep, cmdPhase_stripRunnerRemoveStep,
      cmdPhase_stripCloudbusterCopyStep, cmdPhase_stripCloudbusterRemoveStep,
      cmdPhase_uploadDaemonStep, cmdPhase_uploadRunnerStep,
      cmdPhase_uploadCloudbusterStep]

theorem mainPlan_sorted (args : Args) (bt : BuildType) (ip : Ipv4) :
    (mainPlan args bt ip).Pairwise (fun a b => cmdPhase a.cmd ≤ cmdPhase b.cmd) := by
  unfold mainPlan
  apply pairwise_phase_append 0
  · intro s hs
    cases h : args.no_stop <;> rw [h] at hs <;> simp at hs
    simp [hs, cmdPhase_stopStep]
  · intro s hs
    exact Nat.zero_le _
  · cases h : args.no_stop <;> simp
  · apply pairwise_phase_append 4
    · intro s hs
      exact le_trans (deployPlan_phase_bounds bt ip _ _ _ _ s hs).2 (by decide)
    · intro s hs
      rcases List.mem_append.mp hs with h | h
      · cases hkl : args.keep_logs <;> rw [hkl] at h <;> simp at h
        simp [h, cmdPhase_removeLogsStep]
      · cases hns : args.no_start <;> rw [hns] at h <;> simp at h
        simp [h, cmdPhase_startStep]
    · exact deployPlan_sorted bt ip _ _ _ _
    · apply pairwise_phase_append 5
      · intro s hs
        cases hkl : args.keep_logs <;> rw [hkl] at hs <;> simp at hs
        simp [hs, cmdPhase_removeLogsStep]
      · intro s hs
        cases hns : args.no_start <;> rw [hns] at hs <;> simp at hs
        simp [hs, cmdPhase_startStep]
      · cases args.keep_logs <;> simp
      · cases args.no_start <;> simp

theorem mainTrace_sorted (args : Args) (env : Env)
    (chdir : String → Except String Unit) (exec : ExecF) :
    (mainTrace args env chdir exec).Pairwise (fun a b => cmdPhase a ≤ cmdPhase b) := by
  unfold mainTrace
  cases hbt : parse_build_type args env with
  | error e => simp [main, hbt]
  | ok bt =>
    cases hip : parse_ip args env with
    | error e => simp [main, hbt, hip]
    | ok ip =>
      cases hwd : switch_to_working_dir chdir args.working_dir with
      | error e => simp [main, hbt, hip, hwd]
      | ok u =>
        cases u
        rw [main_eq args env chdir exec bt ip hbt hip hwd]
        obtain ⟨rest, hrest⟩ := runSteps_front exec (mainPlan args bt ip)
        have hp : ((mainPlan args bt ip).map Step.cmd).Pairwise
            (fun a b => cmdPhase a ≤ cmdPhase b) := by
          rw [List.pairwise_map]
          exact mainPlan_sorted args bt ip
        rw [← hrest] at hp
        exact (List.pairwise_append.mp hp).1

theorem mem_ite_nil {α : Type} {c : Prop} [Decidable c] {x : α} {l : List α} :
    (x ∈ if c then ([] : List α) else l) ↔ (¬c ∧ x ∈ l) := by
  split <;> rename_i h <;> simp [h]

theorem mem_ite_nil_r {α : Type} {c : Prop} [Decidable c] {x : α} {l : List α} :
    (x ∈ if c then l else ([] : List α)) ↔ (c ∧ x ∈ l) := by
  split <;> rename_i h <;> simp [h]

theorem stripDaemonRemoveStep_debug :
    stripDaemonRemoveStep BuildType.Debug =
      ⟨⟨"objcopy",
        ["--strip-debug", "--strip-unneeded", "--remove-section", ".gnu_debuglink",
          "--add-gnu-debuglink", "stormcloud_daemon.debug", "stormcloud_daemon"],
        some "target-deploy/debug"⟩,
      "failed to remove debuginfo for debug daemon"⟩ := rfl

theorem stripDaemonRemoveStep_release :
    stripDaemonRemoveStep BuildType.Release =
      ⟨⟨"objcopy",
        ["--strip-debug", "--strip-unneeded", "--remove-section", ".gnu_debuglink",
          "--add-gnu-debuglink", "stormcloud_daemon.debug", "stormcloud_daemon"],
        some "target-deploy/release"⟩,
      "failed to remove debuginfo for release daemon"⟩ := rfl

theorem stripRunnerRemoveStep_debug :
    stripRunnerRemoveStep BuildType.Debug =
      ⟨⟨"objcopy",
        ["--strip-debug", "--strip-unneeded", "--remove-section", ".gnu_debuglink",
          "--add-gnu-debuglink", "stormrunner_javascript.debug", "stormrunner_javascript"],
        some "target-deploy/debug"⟩,
      "failed to remove debuginfo for debug runner"⟩ := rfl

theorem stripRunnerRemoveStep_release :
    stripRunnerRemoveStep BuildType.Release =
      ⟨⟨"objcopy",
        ["--strip-debug", "--strip-unneeded", "--remove-section", ".gnu_debuglink",
          "--add-gnu-debuglink", "stormrunner_javascript.debug", "stormrunner_javascript"],
        some "target-deploy/release"⟩,
      "failed to remove debuginfo for release runner"⟩ := rfl

theorem stripCloudbusterRemoveStep_debug :
    stripCloudbusterRemoveStep BuildType.Debug =
      ⟨⟨"objcopy",
        ["--strip-debug", "--strip-unneeded", "--remove-section", ".gnu_debuglink",
          "--add-gnu-debuglink", "cloudbuster.debug", "cloudbuster"],
        some "target-deploy/debug"⟩,
      "failed to remove debuginfo for debug cloudbuster"⟩ := rfl

theorem stripCloudbusterRemoveStep_release :
    stripCloudbusterRemoveStep BuildType.Release =
      ⟨⟨"objcopy",
        ["--strip-debug", "--strip-unneeded", "--remove-section", ".gnu_debuglink",
          "--add-gnu-debuglink", "cloudbuster.debug", "cloudbuster"],
        some "target-deploy/release"⟩,
      "failed to remove debuginfo for release cloudbuster"⟩ := rfl

/-- C1 (amended): for every configuration whose value resolution and
directory switch succeed, write the plan as l₁ ++ s :: l₂ with every step
of l₁ succeeding.  If step s's command exits with non-zero status, main
executes exactly the commands of l₁ followed by s's command — so no step of
l₂ ever runs — and terminates with s's bail! message, the message naming
that step (and the build variant and target host where the source message
includes them).  If s's command instead fails to launch, main aborts at the
same point but terminates with the propagated io error message. -/
theorem dewploy_step_failure_aborts_pipeline (args : Args) (env : Env)
    (chdir : String → Except String Unit) (exec : ExecF) (bt : BuildType) (ip : Ipv4)
    (l₁ : List Step) (s : Step) (l₂ : List Step)
    (hbt : parse_build_type args env = Except.ok bt)
    (hip : parse_ip args env = Except.ok ip)
    (hwd : switch_to_working_dir chdir args.working_dir = Except.ok ())
    (hplan : mainPlan args bt ip = l₁ ++ s :: l₂)
    (hpre : ∀ t ∈ l₁, exec t.cmd = ExecOutcome.launched true) :
    (exec s.cmd = ExecOutcome.launched false →
      main args env chdir exec = (l₁.map Step.cmd ++ [s.cmd], Except.error s.failMsg))
    ∧ (∀ msg, exec s.cmd = ExecOutcome.failedToLaunch msg →
      main args env chdir exec = (l₁.map Step.cmd ++ [s.cmd], Except.error msg)) := by
  rw [main_eq args env chdir exec bt ip hbt hip hwd, hplan, runSteps_append,
    runSteps_ok exec l₁ hpre]
  constructor
  · intro hf
    simp [runSteps, hf, seqRes]
  · intro msg hf
    simp [runSteps, hf, seqRes]

/-- Witness for C1's amended theorem: with only_runner and no_strip set and
an oracle failing every build command, the run executes the stop command
and the runner build command only, and aborts with the message naming the
failing build step, its variant and artifact. -/
theorem dewploy_step_failure_aborts_pipeline_witness :
    main cfgB envNone chdirOk execFailCross =
      ([create_stop_command ipA, create_build_command "stormrunner_javascript" BuildType.Debug],
        Except.error "failed to build debug runner") := by
  have h := (dewploy_step_failure_aborts_pipeline cfgB envNone chdirOk execFailCross
      BuildType.Debug ipA [stopStep ipA] (buildRunnerStep BuildType.Debug)
      [uploadRunnerStep BuildType.Debug ipA, removeLogsStep ipA, startStep ipA]
      rfl rfl rfl rfl (by decide)).1 (by decide)
  exact h

/-- Counterexample to C1 as stated: when a step's command fails to launch
(here: every command's binary is missing), the run does abort at once, but
the reported error is the raw io message propagated by the ? on
command.status(), not a message naming the failed step — the stop step's
naming message is a different string. -/
theorem dewploy_launch_failure_error_unnamed_cx :
    main cfgA envNone chdirOk execNoLaunch =
      ([create_stop_command ipA], Except.error "No such file or directory (os error 2)")
    ∧ (stopStep ipA).failMsg = "failed to stop stormcloud on 10.0.0.5"
    ∧ "No such file or directory (os error 2)" ≠ "failed to stop stormcloud on 10.0.0.5" := by
  refine ⟨rfl, rfl, by decide⟩

/-- C2: in the sequence of commands any run of main issues, a stop command
always precedes every build command, every upload command comes after every
build and every strip command, and a start command always comes after every
upload command. -/
theorem dewploy_pipeline_phase_order (args : Args) (env : Env)
    (chdir : String → Except String Unit) (exec : ExecF) (i j : Nat)
    (hi : i < (mainTrace args env chdir exec).length)
    (hj : j < (mainTrace args env chdir exec).length) :
    (isStopCmd ((mainTrace args env chdir exec).get ⟨i, hi⟩) = true →
      isBuildCmd ((mainTrace args env chdir exec).get ⟨j, hj⟩) = true → i < j)
    ∧ (isBuildCmd ((mainTrace args env chdir exec).get ⟨i, hi⟩) = true →
      isUploadCmd ((mainTrace args env chdir exec).get ⟨j, hj⟩) = true → i < j)
    ∧ (isStripCmd ((mainTrace args env chdir exec).get ⟨i, hi⟩) = true →
      isUploadCmd ((mainTrace args env chdir exec).get ⟨j, hj⟩) = true → i < j)
    ∧ (isUploadCmd ((mainTrace args env chdir exec).get ⟨i, hi⟩) = true →
      isStartCmd ((mainTrace args env chdir exec).get ⟨j, hj⟩) = true → i < j) := by
  have hsort := mainTrace_sorted args env chdir exec
  have key : ∀ (p1 p2 : Nat),
      cmdPhase ((mainTrace args env chdir exec).get ⟨i, hi⟩) = p1 →
      cmdPhase ((mainTrace args env chdir exec).get ⟨j, hj⟩) = p2 →
      p1 < p2 → i < j := by
    intro p1 p2 hp1 hp2 hlt
    by_contra hij
    rcases Nat.lt_or_ge j i with hji | hij2
    · have hle := List.pairwise_iff_get.mp hsort ⟨j, hj⟩ ⟨i, hi⟩ (Fin.mk_lt_mk.mpr hji)
      rw [hp1, hp2] at hle
      omega
    · have heq : i = j := Nat.le_antisymm hij2 (Nat.not_lt.mp hij)
      have hfin : (⟨i, hi⟩ : Fin (mainTrace args env chdir exec).length) = ⟨j, hj⟩ :=
        Fin.ext heq
      rw [hfin, hp2] at hp1
      omega
  refine ⟨fun h1 h2 => key _ _ (phase_of_isStop h1) (phase_of_isBuild h2) (by omega),
    fun h1 h2 => key _ _ (phase_of_isBuild h1) (phase_of_isUpload h2) (by omega),
    fun h1 h2 => key _ _ (phase_of_isStrip h1) (phase_of_isUpload h2) (by omega),
    fun h1 h2 => key _ _ (phase_of_isUpload h1) (phase_of_isStart h2) (by omega)⟩

/-- Witness for C2: in the full all-phases run (no skip flags, both
required values on the CLI, all commands succeeding) the stop command at
index 0 precedes the build at index 1, the build at index 2 precedes the
upload at index 7, the strip at index 6 precedes the upload at index 7, and
the upload at index 8 precedes the start at index 10. -/
theorem dewploy_pipeline_phase_order_witness :
    (0 : Nat) < 1 ∧ (2 : Nat) < 7 ∧ (6 : Nat) < 7 ∧ (8 : Nat) < 10 :=
  ⟨(dewploy_pipeline_phase_order cfgA envNone chdirOk execOk 0 1
      (by decide) (by decide)).1 (by decide) (by decide),
    (dewploy_pipeline_phase_order cfgA envNone chdirOk execOk 2 7
      (by decide) (by decide)).2.1 (by decide) (by decide),
    (dewploy_pipeline_phase_order cfgA envNone chdirOk execOk 6 7
      (by decide) (by decide)).2.2.1 (by decide) (by decide),
    (dewploy_pipeline_phase_order cfgA envNone chdirOk execOk 8 10
      (by decide) (by decide)).2.2.2 (by decide) (by decide)⟩

/-- C3: in every plan, the daemon's build, strip and upload steps are
present exactly unless only_runner is set, the runner's exactly unless
only_daemon is set, and cloudbuster's exactly when with_cloudbuster is set
(strip steps additionally require no_strip to be unset, since the whole
strip phase is gated by it). -/
theorem dewploy_artifact_selection (args : Args) (bt : BuildType) (ip : Ipv4) :
    (buildDaemonStep bt ∈ mainPlan args bt ip ↔ args.only_runner = false)
    ∧ (buildRunnerStep bt ∈ mainPlan args bt ip ↔ args.only_daemon = false)
    ∧ (buildCloudbusterStep bt ∈ mainPlan args bt ip ↔ args.with_cloudbuster = true)
    ∧ (stripDaemonCopyStep bt ∈ mainPlan args bt ip ↔
        (args.no_strip = false ∧ args.only_runner = false))
    ∧ (stripDaemonRemoveStep bt ∈ mainPlan args bt ip ↔
        (args.no_strip = false ∧ args.only_runner = false))
    ∧ (stripRunnerCopyStep bt ∈ mainPlan args bt ip ↔
        (args.no_strip = false ∧ args.only_daemon = false))
    ∧ (stripRunnerRemoveStep bt ∈ mainPlan args bt ip ↔
        (args.no_strip = false ∧ args.only_daemon = false))
    ∧ (stripCloudbusterCopyStep bt ∈ mainPlan args bt ip ↔
        (args.no_strip = false ∧ args.with_cloudbuster = true))
    ∧ (stripCloudbusterRemoveStep bt ∈ mainPlan args bt ip ↔
        (args.no_strip = false ∧ args.with_cloudbuster = true))
    ∧ (uploadDaemonStep bt ip ∈ mainPlan args bt ip ↔ args.only_runner = false)
    ∧ (uploadRunnerStep bt ip ∈ mainPlan args bt ip ↔ args.only_daemon = false)
    ∧ (uploadCloudbusterStep bt ip ∈ mainPlan args bt ip ↔
        args.with_cloudbuster = true) := by
  rcases args with ⟨abt, adt, aip, od, orr, wc, nstop, nstart, klogs, nstrip, wd⟩
  cases bt <;>
    simp [mainPlan, deployPlan, mem_ite_nil, mem_ite_nil_r, List.mem_append,
      stopStep, startStep, removeLogsStep, buildDaemonStep, buildRunnerStep,
      buildCloudbusterStep, stripDaemonCopyStep, stripRunnerCopyStep,
      stripCloudbusterCopyStep, stripDaemonRemoveStep_debug,
      stripDaemonRemoveStep_release, stripRunnerRemoveStep_debug,
      stripRunnerRemoveStep_release, stripCloudbusterRemoveStep_debug,
      stripCloudbusterRemoveStep_release, uploadDaemonStep, uploadRunnerStep,
      uploadCloudbusterStep, create_stop_command, create_start_command,
      create_remove_logs_command, create_build_command,
      create_copy_debuginfo_command, create_upload_command, daemonTargetPath,
      runnerTargetPath, cloudbusterTargetPath, TARGET_DIR, BuildType.lower]

/-- C4: for each required value, a present CLI flag is used as is — for
every environment, including one whose variable holds a conflicting value;
with the flag absent a parseable environment value is used; resolution
returns an error exactly when the flag is absent and the environment
supplies no parseable value, and the error is the fixed message naming the
environment variable and the flag as the two ways to supply the setting. -/
theorem dewploy_required_value_resolution (args : Args) (env : Env) :
    (∀ b, args.build_type = some b → parse_build_type args env = Except.ok b)
    ∧ (∀ ipv, args.ip = some ipv → parse_ip args env = Except.ok ipv)
    ∧ (args.build_type = none → ∀ s b, env "STORMCLOUD_BUILD_TYPE" = some s →
        BuildType.fromStr s = Except.ok b → parse_build_type args env = Except.ok b)
    ∧ (args.ip = none → ∀ s ipv, env "GHOST_IP" = some s →
        Ipv4.fromStr s = some ipv → parse_ip args env = Except.ok ipv)
    ∧ ((∃ e, parse_build_type args env = Except.error e) ↔
        (args.build_type = none ∧ envBuildType env = none))
    ∧ (∀ e, parse_build_type args env = Except.error e → e = buildTypeMissingMsg)
    ∧ ((∃ e, parse_ip args env = Except.error e) ↔
        (args.ip = none ∧ envIp env = none))
    ∧ (∀ e, parse_ip args env = Except.error e → e = ipMissingMsg) := by
  refine ⟨?_, ?_, ?_, ?_, ?_, ?_, ?_, ?_⟩
  · intro b hb
    simp [parse_build_type, hb]
  · intro ipv h
    simp [parse_ip, h]
  · intro h0 s b hs hb
    simp [parse_build_type, h0, hs, hb]
  · intro h0 s ipv hs hv
    simp [parse_ip, h0, hs, hv]
  · constructor
    · rintro ⟨e, he⟩
      cases hb : args.build_type with
      | some b => simp [parse_build_type, hb] at he
      | none =>
        refine ⟨rfl, ?_⟩
        cases hv : env "STORMCLOUD_BUILD_TYPE" with
        | none => simp [envBuildType, hv]
        | some s =>
          cases hf : BuildType.fromStr s with
          | ok b => simp [parse_build_type, hb, hv, hf] at he
          | error u => simp [envBuildType, hv, hf, Except.toOption]
    · rintro ⟨h0, h1⟩
      cases hv : env "STORMCLOUD_BUILD_TYPE" with
      | none => exact ⟨buildTypeMissingMsg, by simp [parse_build_type, h0, hv]⟩
      | some s =>
        cases hf : BuildType.fromStr s with
        | ok b => simp [envBuildType, hv, hf, Except.toOption] at h1
        | error u =>
          exact ⟨buildTypeMissingMsg, by simp [parse_build_type, h0, hv, hf]⟩
  · intro e he
    cases hb : args.build_type with
    | some b => simp [parse_build_type, hb] at he
    | none =>
      cases hv : env "STORMCLOUD_BUILD_TYPE" with
      | none =>
        simp [parse_build_type, hb, hv] at he
        exact he.symm
      | some s =>
        cases hf : BuildType.fromStr s with
        | ok b => simp [parse_build_type, hb, hv, hf] at he
        | error u =>
          simp [parse_build_type, hb, hv, hf] at he
          exact he.symm
  · constructor
    · rintro ⟨e, he⟩
      cases hb : args.ip with
      | some ipv => simp [parse_ip, hb] at he
      | none =>
        refine ⟨rfl, ?_⟩
        cases hv : env "GHOST_IP" with
        | none => simp [envIp, hv]
        | some s =>
          cases hf : Ipv4.fromStr s with
          | some ipv => simp [parse_ip, hb, hv, hf] at he
          | none => simp [envIp, hv, hf]
    · rintro ⟨h0, h1⟩
      cases hv : env "GHOST_IP" with
      | none => exact ⟨ipMissingMsg, by simp [parse_ip, h0, hv]⟩
      | some s =>
        cases hf : Ipv4.fromStr s with
        | some ipv => simp [envIp, hv, hf] at h1
        | none => exact ⟨ipMissingMsg, by simp [parse_ip, h0, hv, hf]⟩
  · intro e he
    cases hb : args.ip with
    | some ipv => simp [parse_ip, hb] at he
    | none =>
      cases hv : env "GHOST_IP" with
      | none =>
        simp [parse_ip, hb, hv] at he
        exact he.symm
      | some s =>
        cases hf : Ipv4.fromStr s with
        | some ipv => simp [parse_ip, hb, hv, hf] at he
        | none =>
          simp [parse_ip, hb, hv, hf] at he
          exact he.symm

/-- Witness for C4: the CLI flags of cfgA beat the conflicting environment
values; with no CLI flags the environment values release and 10.1.2.3 are
used; with neither source the two fixed missing-value messages are
returned. -/
theorem dewploy_required_value_resolution_witness :
    parse_build_type cfgA envConflict = Except.ok BuildType.Debug
    ∧ parse_ip cfgA envConflict = Except.ok ipA
    ∧ parse_build_type cfgNone envConflict = Except.ok BuildType.Release
    ∧ parse_ip cfgNone envConflict = Except.ok ⟨10, 1, 2, 3⟩
    ∧ parse_build_type cfgNone envNone = Except.error buildTypeMissingMsg
    ∧ parse_ip cfgNone envNone = Except.error ipMissingMsg :=
  ⟨(dewploy_required_value_resolution cfgA envConflict).1 BuildType.Debug rfl,
    (dewploy_required_value_resolution cfgA envConflict).2.1 ipA rfl,
    (dewploy_required_value_resolution cfgNone envConflict).2.2.1 rfl
      "release" BuildType.Release rfl rfl,
    (dewploy_required_value_resolution cfgNone envConflict).2.2.2.1 rfl
      "10.1.2.3" ⟨10, 1, 2, 3⟩ rfl rfl,
    by
      obtain ⟨e, he⟩ :=
        (dewploy_required_value_resolution cfgNone envNone).2.2.2.2.1.mpr ⟨rfl, rfl⟩
      have hmsg := (dewploy_required_value_resolution cfgNone envNone).2.2.2.2.2.1 e he
      rw [hmsg] at he
      exact he,
    by
      obtain ⟨e, he⟩ :=
        (dewploy_required_value_resolution cfgNone envNone).2.2.2.2.2.2.1.mpr ⟨rfl, rfl⟩
      have hmsg := (dewploy_required_value_resolution cfgNone envNone).2.2.2.2.2.2.2 e he
      rw [hmsg] at he
      exact he⟩

/-- C5: an argument record the CLI parser accepts never has both
only_daemon and only_runner set, so every configuration reaching the
pipeline satisfies the mutual-exclusion invariant. -/
theorem dewploy_selection_flags_exclusive (a : Args) (h : clap_accepts a = true) :
    ¬(a.only_daemon = true ∧ a.only_runner = true) := by
  rintro ⟨h1, h2⟩
  simp [clap_accepts, h1, h2] at h

/-- Witness for C5: the accepted configuration cfgB (runner-only) indeed
has at most one selection flag set. -/
theorem dewploy_selection_flags_exclusive_witness :
    ¬(cfgB.only_daemon = true ∧ cfgB.only_runner = true) :=
  dewploy_selection_flags_exclusive cfgB (by decide)

/-- Counterexample to C6 as stated: no fast-release variant exists — the
build-type parser rejects the string fast-release outright, so fast-release
cannot map to a release build. -/
theorem dewploy_no_fast_release_cx :
    BuildType.fromStr "fast-release" = Except.error () := rfl

/-- C6 (amended): for each of the three package names the pipeline builds,
the build command invokes the cross build tool with the package name and
the output-directory argument, and carries the release flag exactly when
the variant is Release; the only variants are Debug and Release — there is
no fast-release variant. -/
theorem dewploy_build_command_release_flag (pkg : String) (bt : BuildType)
    (hpkg : pkg ∈ (["stormcloud_daemon", "stormrunner_javascript", "cloudbuster"] :
      List String)) :
    (create_build_command pkg bt).program = "cross"
    ∧ "--target-dir" ∈ (create_build_command pkg bt).args
    ∧ TARGET_DIR ∈ (create_build_command pkg bt).args
    ∧ "--package" ∈ (create_build_command pkg bt).args
    ∧ pkg ∈ (create_build_command pkg bt).args
    ∧ (bt = BuildType.Debug ∨ bt = BuildType.Release)
    ∧ ("--release" ∈ (create_build_command pkg bt).args ↔ bt = BuildType.Release) := by
  simp only [List.mem_cons, List.not_mem_nil, or_false] at hpkg
  rcases hpkg with rfl | rfl | rfl <;> cases bt <;>
    simp [create_build_command, TARGET_DIR]

/-- Witness for C6's amended theorem: the daemon build carries the release
flag under the Release variant and not under Debug. -/
theorem dewploy_build_command_release_flag_witness :
    "--release" ∈ (create_build_command "stormcloud_daemon" BuildType.Release).args
    ∧ ¬("--release" ∈ (create_build_command "stormcloud_daemon" BuildType.Debug).args) :=
  ⟨(dewploy_build_command_release_flag "stormcloud_daemon" BuildType.Release
      (by decide)).2.2.2.2.2.2.mpr rfl,
    fun hmem =>
      nomatch (dewploy_build_command_release_flag "stormcloud_daemon" BuildType.Debug
        (by decide)).2.2.2.2.2.2.mp hmem⟩

/-- C7: every upload step is an rsync invocation carrying the
human-readable, compression, progress and verbose flags, with source the
artifact's local build-output path (a function of the build variant and the
target directory) and destination root at the target host followed by the
artifact's remote path. -/
theorem dewploy_upload_command_shape (bt : BuildType) (ip : Ipv4) :
    ((uploadDaemonStep bt ip).cmd.program = "rsync"
      ∧ (uploadDaemonStep bt ip).cmd.args =
        ["--human-readable", "--compress", "--progress", "--verbose",
          TARGET_DIR ++ "/" ++ bt.lower ++ "/stormcloud_daemon",
          "root@" ++ ip.str ++ ":/a/stormcloud/bin/release/stormcloud_daemon"])
    ∧ ((uploadRunnerStep bt ip).cmd.program = "rsync"
      ∧ (uploadRunnerStep bt ip).cmd.args =
        ["--human-readable", "--compress", "--progress", "--verbose",
          TARGET_DIR ++ "/" ++ bt.lower ++ "/stormrunner_javascript",
          "root@" ++ ip.str ++
            ":/a/stormcloud/stormlets/release/deployed/stormlet_javascript@0.0.0/stormrunner_javascript.0.0.0"])
    ∧ ((uploadCloudbusterStep bt ip).cmd.program = "rsync"
      ∧ (uploadCloudbusterStep bt ip).cmd.args =
        ["--human-readable", "--compress", "--progress", "--verbose",
          TARGET_DIR ++ "/" ++ bt.lower ++ "/cloudbuster",
          "root@" ++ ip.str ++ ":/a/stormcloud/bin/cloudbuster"]) :=
  ⟨⟨rfl, rfl⟩, ⟨rfl, rfl⟩, ⟨rfl, rfl⟩⟩

/-- Counterexample to C8 as stated: with the working-directory flag absent
and every environment variable set to a directory, the spec's resolution
picks the environment's directory, but the code consults no environment
variable and never calls chdir — the run completes successfully even under
a chdir oracle that always fails. -/
theorem dewploy_workdir_env_fallback_missing_cx :
    resolve_working_dir_spec none envAll = some "/srv/work"
    ∧ (main cfgA envAll chdirProbe execOk).2 = Except.ok () := ⟨rfl, rfl⟩

/-- C8 (amended): working-directory resolution uses the CLI flag only:
when the flag carries a directory, the directory switch invokes chdir on
exactly it; when the flag is absent, the switch is a no-op success and the
whole run is unchanged under any chdir oracle — no environment variable is
consulted and nothing fails. -/
theorem dewploy_workdir_cli_only (args : Args) (env : Env)
    (chdir chdir' : String → Except String Unit) (exec : ExecF) :
    (args.working_dir = none →
      switch_to_working_dir chdir args.working_dir = Except.ok ()
      ∧ main args env chdir exec = main args env chdir' exec)
    ∧ (∀ d, args.working_dir = some d →
      switch_to_working_dir chdir args.working_dir = chdir d) := by
  constructor
  · intro h
    constructor
    · rw [h]
      rfl
    · simp [main, switch_to_working_dir, h]
  · intro d h
    rw [h]
    rfl

/-- Witness for C8's amended theorem: with no flag the failing chdir probe
is never consulted and the run is that of any other oracle; with the flag,
the switch is exactly chdir on the flag's directory. -/
theorem dewploy_workdir_cli_only_witness :
    (switch_to_working_dir chdirProbe cfgA.working_dir = Except.ok ()
      ∧ main cfgA envAll chdirProbe execOk = main cfgA envAll chdirOk execOk)
    ∧ switch_to_working_dir chdirOk cfgC.working_dir = chdirOk "/srv/checkout" :=
  ⟨(dewploy_workdir_cli_only cfgA envAll chdirProbe chdirOk execOk).1 rfl,
    (dewploy_workdir_cli_only cfgC envAll chdirOk chdirOk execOk).2 "/srv/checkout" rfl⟩

/-- C9: the daemon-messaging flag is parsed into the configuration but
never read: two runs whose configurations differ only in daemon_type issue
the same commands and produce the same result, for every environment,
chdir oracle and execution oracle. -/
theorem dewploy_daemon_type_no_effect (args : Args) (env : Env)
    (chdir : String → Except String Unit) (exec : ExecF) (d d' : Option DaemonType) :
    main { args with daemon_type := d } env chdir exec
      = main { args with daemon_type := d' } env chdir exec := rfl

/-- C10: with the CLI flag absent and the environment variable set to a
string that does not parse, resolution returns exactly the same fixed
configuration-missing error as when the variable is unset, for both the
build type and the target host; the parse failure is never surfaced as a
distinct error (and the embedding is total, so no input panics). -/
theorem dewploy_bad_env_value_same_error (args : Args) (env : Env) :
    (args.build_type = none → ∀ s, env "STORMCLOUD_BUILD_TYPE" = some s →
      BuildType.fromStr s = Except.error () →
      parse_build_type args env = Except.error buildTypeMissingMsg)
    ∧ (args.build_type = none →
      parse_build_type args (fun _ => none) = Except.error buildTypeMissingMsg)
    ∧ (args.ip = none → ∀ s, env "GHOST_IP" = some s → Ipv4.fromStr s = none →
      parse_ip args env = Except.error ipMissingMsg)
    ∧ (args.ip = none → parse_ip args (fun _ => none) = Except.error ipMissingMsg) := by
  refine ⟨?_, ?_, ?_, ?_⟩
  · intro h0 s hs hf
    simp [parse_build_type, h0, hs, hf]
  · intro h0
    simp [parse_build_type, h0]
  · intro h0 s hs hf
    simp [parse_ip, h0, hs, hf]
  · intro h0
    simp [parse_ip, h0]

/-- Witness for C10: with nothing on the CLI, the unparseable environment
values fast-release and 999.0.0.1 produce exactly the two fixed
missing-value messages, the same ones produced by an empty environment. -/
theorem dewploy_bad_env_value_same_error_witness :
    parse_build_type cfgNone envBad = Except.error buildTypeMissingMsg
    ∧ parse_build_type cfgNone (fun _ => none) = Except.error buildTypeMissingMsg
    ∧ parse_ip cfgNone envBad = Except.error ipMissingMsg
    ∧ parse_ip cfgNone (fun _ => none) = Except.error ipMissingMsg :=
  ⟨(dewploy_bad_env_value_same_error cfgNone envBad).1 rfl "fast-release" rfl rfl,
    (dewploy_bad_env_value_same_error cfgNone envBad).2.1 rfl,
    (dewploy_bad_env_value_same_error cfgNone envBad).2.2.1 rfl "999.0.0.1" rfl rfl,
    (dewploy_bad_env_value_same_error cfgNone envBad).2.2.2 rfl⟩

end Dewploy
